import Mathlib

/-!
Shallow embedding of the macro_player language core
(src/core/parser.py, src/core/ast_builder.py, src/core/ast_nodes.py,
src/core/expression.py, src/core/variable_store.py, src/core/runner.py,
src/core/executor.py dispatch table, src/core/constants.py), together
with theorems settling the specification claims about it.

Conventions used throughout:
  - Python strings are Lean String; Python lists are Lean List.
  - Python dictionaries are either association lists that keep insertion
    order (the variable store) or lookup functions (the sugar map).
  - Python int is Int; Python float is modelled exactly as Rat (no claim
    verified here depends on binary floating point rounding).
  - Fallible Python code (functions that can raise) returns Except.
  - The logger callback is modelled as a list of (level, message) pairs
    accumulated in the state, most recent entry first.
-/

namespace MacroPlayer

/-- Dynamically typed value stored in the variable store and produced by
the expression evaluator (int / float / bool / str in the source; the
float case is modelled as an exact rational). -/
inductive PyVal where
  | int (n : Int)
  | float (q : Rat)
  | bool (b : Bool)
  | str (s : String)
deriving Repr, DecidableEq

/-- Python truthiness of a value (used by the not operator and by and/or). -/
def PyVal.truthy : PyVal → Bool
  | .int n => n != 0
  | .float q => q != 0
  | .bool b => b
  | .str s => s != ""

-- ---------------------------------------------------------------------------
-- Python string helpers
-- ---------------------------------------------------------------------------

/-- Characters treated as whitespace by Python str.strip and str.split. -/
def pyIsSpace (c : Char) : Bool :=
  c == ' ' || c == '\t' || c == '\n' || c == '\r' ||
  c == Char.ofNat 11 || c == Char.ofNat 12

/-- Python str.strip with no arguments: remove leading and trailing
whitespace. -/
def pyStrip (s : String) : String :=
  ⟨(s.data.dropWhile pyIsSpace).reverse.dropWhile pyIsSpace |>.reverse⟩

/-- Helper for pySplitWs: split a character list on whitespace runs. -/
def pySplitWsAux : List Char → List Char → List String
  | [], acc => if acc.isEmpty then [] else [⟨acc.reverse⟩]
  | c :: rest, acc =>
    if pyIsSpace c then
      if acc.isEmpty then pySplitWsAux rest []
      else (⟨acc.reverse⟩ : String) :: pySplitWsAux rest []
    else pySplitWsAux rest (c :: acc)

/-- Python str.split with no arguments: split on whitespace runs,
discarding empty pieces. -/
def pySplitWs (s : String) : List String :=
  pySplitWsAux s.data []

/-- ASCII uppercase of one character. -/
def asciiUpper (c : Char) : Char :=
  if 'a' ≤ c && c ≤ 'z' then Char.ofNat (c.toNat - 32) else c

/-- ASCII lowercase of one character. -/
def asciiLower (c : Char) : Char :=
  if 'A' ≤ c && c ≤ 'Z' then Char.ofNat (c.toNat + 32) else c

/-- Python str.upper restricted to ASCII (command names in this language
are ASCII; Python uppercases exactly the ASCII lowercase range there). -/
def pyUpper (s : String) : String := ⟨s.data.map asciiUpper⟩

/-- Python str.lower restricted to ASCII. -/
def pyLower (s : String) : String := ⟨s.data.map asciiLower⟩

/-- Python str.startswith for a plain prefix. -/
def pyStartsWith (s pre : String) : Bool := pre.data.isPrefixOf s.data

-- ---------------------------------------------------------------------------
-- src/core/prefix.py
-- ---------------------------------------------------------------------------

/-- VARIABLE_PREFIX from src/core/prefix.py: variables start with a dollar
sign. -/
def variableSigil : String := "$"

/-- COMMENT_PREFIX from src/core/prefix.py. -/
def commentSigil : Char := '#'

-- ---------------------------------------------------------------------------
-- src/core/parser.py : strip_comment and tokenize
-- ---------------------------------------------------------------------------

/-- Character-scan core of strip_comment: cut at the first unquoted
comment character, toggling the in-string flag at every double quote. -/
def stripCommentAux : List Char → Bool → List Char
  | [], _ => []
  | c :: rest, inStr =>
    if c == '"' then c :: stripCommentAux rest (!inStr)
    else if c == commentSigil && !inStr then []
    else c :: stripCommentAux rest inStr

/-- strip_comment from src/core/parser.py: return the line with the
trailing comment removed; a comment character inside a double-quoted
span is kept. -/
def strip_comment (line : String) : String :=
  ⟨stripCommentAux line.data false⟩

/-- The single-quote character (ASCII 39). -/
def squote : Char := Char.ofNat 39

/-- Quote characters recognised by shlex. -/
def shQuotes : List Char := ['"', squote]

/-- Quote characters inside which shlex processes backslash escapes
(shlex.escapedquotes): only the double quote. -/
def shEscQuotes : List Char := ['"']

/-- Whitespace characters recognised by shlex (shlex.whitespace). -/
def shIsSpace (c : Char) : Bool :=
  c == ' ' || c == '\t' || c == '\r' || c == '\n'

/-- Scanner state of the shlex model.  ws is the initial / between-token
state; word is an unquoted token in progress; inQuote q is inside a
quoted span opened by q; esc src is right after a backslash, where src
is none when the backslash was met outside quotes and some q when it was
met inside a double-quoted span. -/
inductive ShState where
  | ws
  | word
  | inQuote (q : Char)
  | esc (src : Option Char)
deriving Repr, DecidableEq

/-- One-pass model of shlex.split(s, posix=True) over the character
list, mirroring CPython shlex.read_token with whitespace_split=True,
no commenters and no punctuation chars.  tok is the token built so far
(reversed), quoted records whether the current token saw a quote (so
that an empty quoted token is still emitted), and the produced token
list is accumulated in acc (reversed). -/
def shlexRun : List Char → ShState → List Char → Bool → List String →
    Except String (List String)
  | [], st, tok, quoted, acc =>
    match st with
    | .inQuote _ => .error "No closing quotation"
    | .esc _ => .error "No escaped character"
    | _ =>
      if tok.isEmpty && !quoted then .ok acc.reverse
      else .ok (acc.reverse ++ [⟨tok.reverse⟩])
  | c :: rest, st, tok, quoted, acc =>
    match st with
    | .ws =>
      if shIsSpace c then shlexRun rest .ws tok quoted acc
      else if c == '\\' then shlexRun rest (.esc none) tok quoted acc
      else if c == '"' || c == squote then shlexRun rest (.inQuote c) tok true acc
      else shlexRun rest .word (c :: tok) quoted acc
    | .word =>
      if shIsSpace c then
        shlexRun rest .ws [] false (⟨tok.reverse⟩ :: acc)
      else if c == '"' || c == squote then shlexRun rest (.inQuote c) tok true acc
      else if c == '\\' then shlexRun rest (.esc none) tok quoted acc
      else shlexRun rest .word (c :: tok) quoted acc
    | .inQuote q =>
      if c == q then shlexRun rest .word tok quoted acc
      else if c == '\\' && q == '"' then shlexRun rest (.esc (some q)) tok quoted acc
      else shlexRun rest (.inQuote q) (c :: tok) quoted acc
    | .esc src =>
      match src with
      | none => shlexRun rest .word (c :: tok) quoted acc
      | some q =>
        -- Inside double quotes a backslash escapes only the quote and
        -- the backslash itself; otherwise the backslash is kept.
        if c == q || c == '\\' then shlexRun rest (.inQuote q) (c :: tok) quoted acc
        else shlexRun rest (.inQuote q) (c :: '\\' :: tok) quoted acc

/-- Model of shlex.split(s, posix=True) as used by tokenize. -/
def shlexSplit (s : String) : Except String (List String) :=
  shlexRun s.data .ws [] false []

/-- tokenize from src/core/parser.py: strip the comment, trim, return []
for a blank result, shlex-split, and on a shlex ValueError fall back to
naive whitespace splitting. -/
def tokenize (line : String) : List String :=
  let stripped := pyStrip (strip_comment line)
  if stripped = "" then []
  else
    match shlexSplit stripped with
    | .ok toks => toks
    | .error _ => pySplitWs stripped

-- ---------------------------------------------------------------------------
-- src/core/executor.py : the _DISPATCH table keys and is_commands
-- ---------------------------------------------------------------------------

/-- The keys of the _DISPATCH table in src/core/executor.py (the mapped
handlers are external device actions; only membership matters to the
parser and to expand_sugar). -/
def dispatchKeys : List String :=
  ["MOUSE_POS",
   "MOUSE_LEFT_CLICK", "MOUSE_RIGHT_CLICK", "MOUSE_MIDDLE_CLICK",
   "MOUSE_LEFT_DOWN", "MOUSE_RIGHT_DOWN", "MOUSE_MIDDLE_DOWN",
   "MOUSE_LEFT_UP", "MOUSE_RIGHT_UP", "MOUSE_MIDDLE_UP",
   "WHEEL",
   "KEY", "KEY_DOWN", "KEY_UP", "KEYS", "KEYS_DOWN", "KEYS_UP", "TYPE",
   "WAIT",
   "IF", "ELSEIF", "ELSE", "ENDIF",
   "LOOP", "ENDLOOP",
   "WHILE", "ENDWHILE",
   "REPEAT", "UNTIL",
   "CALL", "BREAK", "CONTINUE", "RETURN", "EXIT",
   "PRINT",
   "MOUSE_GET_POS",
   "CLIPBOARD_SET", "SCREENSHOT",
   "WINDOW_FOCUS", "WINDOW_MOVE", "WINDOW_RESIZE", "WINDOW_CLOSE",
   "FUNCTION", "TRY", "CATCH", "ENDTRY"]

/-- is_commands from src/core/executor.py: membership in the dispatch
table. -/
def is_commands (key : String) : Bool := dispatchKeys.contains key

-- ---------------------------------------------------------------------------
-- src/core/parser.py : expand_sugar and parse_lines
-- ---------------------------------------------------------------------------

/-- expand_sugar from src/core/parser.py.  The sugar map (a Python dict)
is modelled as a lookup function String to Option String. -/
def expand_sugar (tokens : List String) (sugarMap : String → Option String) :
    List String :=
  match tokens with
  | [] => tokens
  | t :: rest =>
    let cmd := pyUpper t
    let canonical := (sugarMap cmd).getD cmd
    if is_commands canonical then canonical :: rest
    else t :: rest

/-- Helper for splitLines. -/
def splitLinesAux : List Char → List Char → List String
  | [], acc => [⟨acc.reverse⟩]
  | c :: rest, acc =>
    if c == '\n' then (⟨acc.reverse⟩ : String) :: splitLinesAux rest []
    else splitLinesAux rest (c :: acc)

/-- Splitting of the script text into lines (Python str.splitlines; the
difference on a trailing newline is an extra empty line, which tokenize
discards). -/
def splitLines (s : String) : List String := splitLinesAux s.data []

/-- parse_lines from src/core/parser.py: tokenize every line, expand
sugar, and keep only the non-empty token lists. -/
def parse_lines (text : String) (sugarMap : String → Option String) :
    List (List String) :=
  (splitLines text).foldr
    (fun raw acc =>
      let tokens := expand_sugar (tokenize raw) sugarMap
      if tokens.isEmpty then acc else tokens :: acc) []

-- ---------------------------------------------------------------------------
-- src/core/ast_nodes.py
-- ---------------------------------------------------------------------------

/-- AST node variants of src/core/ast_nodes.py (CmdNode, CallNode,
AssignNode, IfNode, LoopNode, WhileNode, RepeatNode, TryCatchNode). -/
inductive Node where
  | cmd (tokens : List String) (lineNum : Nat)
  | call (filename : String) (lineNum : Nat)
  | assign (varName : String) (rhsTokens : List String) (lineNum : Nat)
  | ifN (branches : List (List String × List Node)) (elseBody : List Node)
  | loop (countExpr : String) (body : List Node)
  | whileN (condition : List String) (body : List Node)
  | repeatN (body : List Node) (condition : List String)
  | tryN (tryBody : List Node) (catchBody : List Node)
deriving Repr

-- ---------------------------------------------------------------------------
-- src/core/ast_builder.py
-- ---------------------------------------------------------------------------

/-- The _BLOCK_TERMINATORS set of src/core/ast_builder.py. -/
def blockTerminators : List String :=
  ["ENDLOOP", "ENDWHILE", "UNTIL", "ELSEIF", "ELSE", "ENDIF", "CATCH", "ENDTRY"]

/-- The _peek helper: upper-cased first token of a line.  Token lines
produced by parse_lines are never empty, so the default for an empty
line is never exercised by the pipeline. -/
def peekCmd (line : List String) : String := pyUpper (line.headD "")

/-- Python str.strip(chars) for the quote characters, as used by
_parse_call on the CALL filename argument: remove leading and trailing
characters drawn from the set. -/
def pyStripQuotes (s : String) : String :=
  let isQ : Char → Bool := fun c => c == '"' || c == squote
  ⟨(s.data.dropWhile isQ).reverse.dropWhile isQ |>.reverse⟩

/-- Result of a block parse: the parsed value, the cursor position after
the block, and the remaining token lines. -/
abbrev ParseOut (α : Type) := α × Nat × List (List String)

/-- Consume the next line when its command equals the expected closing
keyword (the optional-terminator pattern shared by the sub-parsers). -/
def consumeIfPeek (kw : String) (pos : Nat) (lines : List (List String)) :
    Nat × List (List String) :=
  match lines with
  | l :: r => if peekCmd l = kw then (pos + 1, r) else (pos, lines)
  | [] => (pos, lines)

mutual

/-- The _Builder._parse_block loop together with _Builder._dispatch and
the per-construct sub-parsers of src/core/ast_builder.py, written over
the list of remaining token lines with an absolute position counter for
error messages.  The extra fuel argument only bounds the recursion; a
fuel of one more than the number of remaining lines is always enough
because every recursive call strictly shrinks the remaining line list,
so the fuel-exhausted branch is unreachable from build_ast. -/
def parseBlock (fuel : Nat) (stop : List String) (pos : Nat)
    (lines : List (List String)) : Except String (ParseOut (List Node)) :=
  match fuel with
  | 0 => .error "parse fuel exhausted"
  | fuel + 1 =>
    match lines with
    | [] => .ok ([], pos, [])
    | line :: rest =>
      let cmd := peekCmd line
      if stop.contains cmd then .ok ([], pos, line :: rest)
      else if cmd = "LOOP" then do
        let count := (line.get? 1).getD "1"
        let (body, pos1, rem1) ← parseBlock fuel ["ENDLOOP"] (pos + 1) rest
        let (pos2, rem2) := consumeIfPeek "ENDLOOP" pos1 rem1
        let (nodes, pos3, rem3) ← parseBlock fuel stop pos2 rem2
        .ok (Node.loop count body :: nodes, pos3, rem3)
      else if cmd = "WHILE" then do
        let cond := line.tail
        let (body, pos1, rem1) ← parseBlock fuel ["ENDWHILE"] (pos + 1) rest
        let (pos2, rem2) := consumeIfPeek "ENDWHILE" pos1 rem1
        let (nodes, pos3, rem3) ← parseBlock fuel stop pos2 rem2
        .ok (Node.whileN cond body :: nodes, pos3, rem3)
      else if cmd = "REPEAT" then do
        let (body, pos1, rem1) ← parseBlock fuel ["UNTIL"] (pos + 1) rest
        let (cond, pos2, rem2) :=
          match rem1 with
          | l :: r =>
            if peekCmd l = "UNTIL" then (l.tail, pos1 + 1, r) else ([], pos1, rem1)
          | [] => ([], pos1, rem1)
        let (nodes, pos3, rem3) ← parseBlock fuel stop pos2 rem2
        .ok (Node.repeatN body cond :: nodes, pos3, rem3)
      else if cmd = "IF" then do
        let cond := line.tail
        let (body, pos1, rem1) ←
          parseBlock fuel ["ELSEIF", "ELSE", "ENDIF"] (pos + 1) rest
        let (more, pos2, rem2) ← parseIfChain fuel pos1 rem1
        let (elseBody, pos3, rem3) ←
          match rem2 with
          | l :: r =>
            if peekCmd l = "ELSE" then parseBlock fuel ["ENDIF"] (pos2 + 1) r
            else .ok ([], pos2, rem2)
          | [] => .ok (([] : List Node), pos2, rem2)
        let (pos4, rem4) := consumeIfPeek "ENDIF" pos3 rem3
        let (nodes, pos5, rem5) ← parseBlock fuel stop pos4 rem4
        .ok (Node.ifN ((cond, body) :: more) elseBody :: nodes, pos5, rem5)
      else if cmd = "TRY" then do
        let (tryBody, pos1, rem1) ← parseBlock fuel ["CATCH", "ENDTRY"] (pos + 1) rest
        let (catchBody, pos2, rem2) ←
          match rem1 with
          | l :: r =>
            if peekCmd l = "CATCH" then parseBlock fuel ["ENDTRY"] (pos1 + 1) r
            else .ok ([], pos1, rem1)
          | [] => .ok (([] : List Node), pos1, rem1)
        let (pos3, rem3) := consumeIfPeek "ENDTRY" pos2 rem2
        let (nodes, pos4, rem4) ← parseBlock fuel stop pos3 rem3
        .ok (Node.tryN tryBody catchBody :: nodes, pos4, rem4)
      else if cmd = "CALL" then do
        let filename := ((line.get? 1).map pyStripQuotes).getD ""
        let (nodes, pos1, rem1) ← parseBlock fuel stop (pos + 1) rest
        .ok (Node.call filename pos :: nodes, pos1, rem1)
      else if blockTerminators.contains cmd then
        .error s!"Unexpected block terminator {cmd} at source line {pos + 1}"
      else if pyStartsWith (line.headD "") variableSigil && line.length ≥ 2 &&
          line.get? 1 = some "=" then do
        let (nodes, pos1, rem1) ← parseBlock fuel stop (pos + 1) rest
        .ok (Node.assign (line.headD "") (line.drop 2) pos :: nodes, pos1, rem1)
      else do
        let (nodes, pos1, rem1) ← parseBlock fuel stop (pos + 1) rest
        .ok (Node.cmd line pos :: nodes, pos1, rem1)

/-- The zero-or-more ELSEIF branch loop inside _Builder._parse_if. -/
def parseIfChain (fuel : Nat) (pos : Nat) (lines : List (List String)) :
    Except String (ParseOut (List (List String × List Node))) :=
  match fuel with
  | 0 => .error "parse fuel exhausted"
  | fuel + 1 =>
    match lines with
    | [] => .ok ([], pos, [])
    | l :: r =>
      if peekCmd l = "ELSEIF" then do
        let cond := l.tail
        let (body, pos1, rem1) ←
          parseBlock fuel ["ELSEIF", "ELSE", "ENDIF"] (pos + 1) r
        let (more, pos2, rem2) ← parseIfChain fuel pos1 rem1
        .ok ((cond, body) :: more, pos2, rem2)
      else .ok ([], pos, l :: r)

end

/-- build_ast from src/core/ast_builder.py: parse the whole token-line
list with an empty stop set; any unconsumed remainder is a parse
error. -/
def build_ast (tokenLines : List (List String)) : Except String (List Node) := do
  let (nodes, pos, rem) ← parseBlock (tokenLines.length + 1) [] 0 tokenLines
  match rem with
  | [] => .ok nodes
  | l :: _ =>
    let cmd := peekCmd l
    .error s!"Unexpected {cmd} at source line {pos + 1}"

-- ---------------------------------------------------------------------------
-- src/core/variable_store.py
-- ---------------------------------------------------------------------------

/-- The VariableStore dictionary, modelled as an insertion-ordered
association list. -/
abbrev VarMap := List (String × PyVal)

/-- VariableStore.get with the default of integer zero. -/
def getVar (m : VarMap) (name : String) : PyVal :=
  ((m.find? (fun p => p.1 == name)).map Prod.snd).getD (.int 0)

/-- VariableStore.set: Python dict assignment keeps the position of an
existing key and appends a new key at the end. -/
def setVar : VarMap → String → PyVal → VarMap
  | [], name, v => [(name, v)]
  | (k, w) :: rest, name, v =>
    if k == name then (k, v) :: rest else (k, w) :: setVar rest name v

-- ---------------------------------------------------------------------------
-- src/core/expression.py : literal coercion
-- ---------------------------------------------------------------------------

/-- ASCII digit test. -/
def isDigit (c : Char) : Bool := '0' ≤ c && c ≤ '9'

/-- Word character in the sense of the regex class used by the module
(letters, digits, underscore). -/
def isWordChar (c : Char) : Bool :=
  ('a' ≤ c && c ≤ 'z') || ('A' ≤ c && c ≤ 'Z') || isDigit c || c == '_'

/-- Digit list to natural number. -/
def digitsToNat (ds : List Char) : Nat :=
  ds.foldl (fun acc c => acc * 10 + (c.toNat - 48)) 0

/-- Python int(s) conversion on a string: optional surrounding
whitespace, an optional sign, then a non-empty digit run (numeric
underscore separators are not modelled; no claim exercises them). -/
def pyParseInt (s : String) : Option Int :=
  let t := (pyStrip s).data
  let (sign, ds) :=
    match t with
    | c :: rest =>
      if c == '-' then ((-1 : Int), rest)
      else if c == '+' then ((1 : Int), rest)
      else ((1 : Int), t)
    | [] => ((1 : Int), t)
  if ds.isEmpty || !(ds.all isDigit) then none
  else some (sign * (digitsToNat ds : Int))

/-- Python float(s) conversion on a string, for finite decimal forms:
optional sign, digits with an optional fractional part and an optional
decimal exponent (inf / nan spellings and underscores are not
modelled; no claim exercises them). -/
def pyParseFloat (s : String) : Option Rat :=
  let t := (pyStrip s).data
  let (sign, u) :=
    match t with
    | c :: rest =>
      if c == '-' then ((-1 : Rat), rest)
      else if c == '+' then ((1 : Rat), rest)
      else ((1 : Rat), t)
    | [] => ((1 : Rat), t)
  let intPart := u.takeWhile isDigit
  let u1 := u.drop intPart.length
  let (fracPart, u2) :=
    match u1 with
    | '.' :: rest => (rest.takeWhile isDigit, rest.drop (rest.takeWhile isDigit).length)
    | _ => ([], u1)
  if intPart.isEmpty && fracPart.isEmpty then none
  else
    let mantissa : Rat :=
      (digitsToNat intPart : Rat) +
        (digitsToNat fracPart : Rat) / ((10 : Rat) ^ fracPart.length)
    match u2 with
    | [] => some (sign * mantissa)
    | c :: rest =>
      if c == 'e' || c == 'E' then
        let (eneg, v) :=
          match rest with
          | d :: more =>
            if d == '-' then (true, more)
            else if d == '+' then (false, rest.tail)
            else (false, rest)
          | [] => (false, rest)
        let eds := v.takeWhile isDigit
        if eds.isEmpty || !(v.drop eds.length).isEmpty then none
        else
          let scale : Rat := (10 : Rat) ^ digitsToNat eds
          some (sign * (if eneg then mantissa / scale else mantissa * scale))
      else none

/-- The _coerce helper of src/core/expression.py: try int, then float,
then the case-insensitive boolean words, else keep the string. -/
def pyCoerce (s : String) : PyVal :=
  match pyParseInt s with
  | some n => .int n
  | none =>
    match pyParseFloat s with
    | some q => .float q
    | none =>
      if pyLower s = "true" then .bool true
      else if pyLower s = "false" then .bool false
      else .str s

-- ---------------------------------------------------------------------------
-- src/core/expression.py : keyword normalisation and variable substitution
-- ---------------------------------------------------------------------------

/-- Case-insensitive character comparison for ASCII. -/
def chEqCI (a b : Char) : Bool := asciiUpper a == asciiUpper b

/-- Whether the word w occurs at the head of cs case-insensitively with a
word boundary after it. -/
def wordAtHead (w : List Char) (cs : List Char) : Bool :=
  match w, cs with
  | [], [] => true
  | [], c :: _ => !isWordChar c
  | _ :: _, [] => false
  | a :: w1, c :: cs1 => chEqCI a c && wordAtHead w1 cs1

/-- One pass of re.sub with a word-boundary, case-insensitive word
pattern (the AND / OR / NOT normalisation in eval_expr).  prevIsWord
tracks whether the previous emitted character is a word character, which
decides the left boundary.  The fuel is the remaining length plus one;
every step consumes at least one character. -/
def replaceWordAux (w repl : List Char) (fuel : Nat) (cs : List Char)
    (prevIsWord : Bool) : List Char :=
  match fuel with
  | 0 => cs
  | fuel + 1 =>
    match cs with
    | [] => []
    | c :: rest =>
      if !prevIsWord && wordAtHead w cs then
        repl ++ replaceWordAux w repl fuel (cs.drop w.length)
          (match repl.getLast? with | some l => isWordChar l | none => prevIsWord)
      else
        c :: replaceWordAux w repl fuel rest (isWordChar c)

/-- re.sub of a word-boundary, case-insensitive keyword over a string. -/
def replaceWord (w repl : String) (s : String) : String :=
  ⟨replaceWordAux w.data repl.data (s.data.length + 1) s.data false⟩

/-- The three keyword normalisations applied by eval_expr, in source
order: AND, OR, NOT each mapped to the lowercase Python operator. -/
def normalizeKeywords (s : String) : String :=
  replaceWord "NOT" "not" (replaceWord "OR" "or" (replaceWord "AND" "and" s))

/-- Python repr of a string as produced for substitution: quoted with a
single quote, switching to double quotes when the text contains a single
quote and no double quote; backslashes and the active quote character are
escaped.  Control-character escaping is not modelled; no claim stores
control characters in a string variable. -/
def pyReprStr (s : String) : String :=
  let q : Char := if s.data.contains squote && !s.data.contains '"' then '"' else squote
  let body := s.data.foldr
    (fun c acc =>
      if c == '\\' || c == q then '\\' :: c :: acc else c :: acc) []
  ⟨q :: body ++ [q]⟩

/-- Python str() of a float for the decimally representable values the
language produces (scientific notation for extreme magnitudes and the
shortest-roundtrip behaviour of binary floats are not modelled; no
verified claim renders a float). -/
def pyFloatStr (q : Rat) : String :=
  if q.den = 1 then
    let n := q.num
    s!"{n}.0"
  else
    match (List.range 64).find? (fun k => (10 : Nat) ^ k % q.den == 0) with
    | some k =>
      let scaled : Nat := q.num.natAbs * ((10 : Nat) ^ k / q.den)
      let ds := toString scaled
      let ds := if ds.length ≤ k then
          String.mk (List.replicate (k + 1 - ds.length) '0') ++ ds
        else ds
      (if q.num < 0 then "-" else "") ++ ds.dropRight k ++ "." ++ ds.takeRight k
    | none =>
      let n := q.num
      let d := q.den
      s!"{n}/{d}"

/-- The textual replacement _sub_vars uses for one variable value:
booleans become the Python keywords, strings become their repr, other
values their str() form. -/
def substRepr : PyVal → String
  | .bool b => if b then "True" else "False"
  | .str s => pyReprStr s
  | .int n => toString n
  | .float q => pyFloatStr q

/-- The scan of _sub_vars: replace every occurrence of the variable
pattern (the dollar sigil followed by a letter or underscore and then
word characters) by the representation of its current value.  The fuel
is the remaining length plus one; every step consumes at least one
character. -/
def subVarsAux (vars : VarMap) (fuel : Nat) : List Char → List Char
  | [] => []
  | c :: rest =>
    match fuel with
    | 0 => c :: rest
    | fuel + 1 =>
      if c == '$' then
        match rest with
        | d :: _ =>
          if isWordChar d && !isDigit d then
            let nameRun := rest.takeWhile isWordChar
            let varName : String := ⟨'$' :: nameRun⟩
            (substRepr (getVar vars varName)).data ++
              subVarsAux vars fuel (rest.drop nameRun.length)
          else c :: subVarsAux vars fuel rest
        | [] => [c]
      else c :: subVarsAux vars fuel rest

/-- The _sub_vars function of src/core/expression.py. -/
def subVars (s : String) (vars : VarMap) : String :=
  ⟨subVarsAux vars (s.data.length + 1) s.data⟩

-- ---------------------------------------------------------------------------
-- Model of the Python expression eval used by eval_expr (multi-token
-- path).  The source compiles the substituted string with eval() under
-- empty builtins; the documented expression language is numeric and
-- string literals, arithmetic, comparisons and and / or / not.  The
-- model implements exactly the Python grammar fragment reachable from
-- that surface: literals, names (which fail at evaluation time because
-- there are no builtins), unary plus / minus / not, binary + - * / //
-- % **, chained comparisons, short-circuit and / or, and parentheses.
-- ---------------------------------------------------------------------------

/-- Lexical token of the expression sublanguage. -/
inductive PyTok where
  | num (v : PyVal)
  | strLit (s : String)
  | name (s : String)
  | op (s : String)
deriving Repr, DecidableEq

/-- Lex a string literal body after the opening quote q, handling the
backslash escapes produced by repr (backslash before the quote or a
backslash is consumed; any other backslash pair is kept verbatim, as in
Python source text the unknown escapes are kept). -/
def lexStr (q : Char) : List Char → List Char →
    Except String (String × List Char)
  | [], _ => .error "unterminated string literal"
  | c :: rest, acc =>
    if c == q then .ok (⟨acc.reverse⟩, rest)
    else if c == '\\' then
      match rest with
      | [] => .error "unterminated string literal"
      | d :: more =>
        if d == '\\' || d == q then lexStr q more (d :: acc)
        else if d == 'n' then lexStr q more ('\n' :: acc)
        else if d == 't' then lexStr q more ('\t' :: acc)
        else if d == 'r' then lexStr q more ('\r' :: acc)
        else lexStr q more (d :: '\\' :: acc)
    else lexStr q rest (c :: acc)

/-- Lex a numeric literal starting at a digit or a decimal point.
Python rejects a multi-digit integer literal with a leading zero. -/
def lexNum (cs : List Char) : Except String (PyVal × List Char) :=
  let intPart := cs.takeWhile isDigit
  let u1 := cs.drop intPart.length
  match u1 with
  | '.' :: rest =>
    let fracPart := rest.takeWhile isDigit
    let u2 := rest.drop fracPart.length
    let mantissa : Rat :=
      (digitsToNat intPart : Rat) +
        (digitsToNat fracPart : Rat) / ((10 : Rat) ^ fracPart.length)
    .ok (.float mantissa, u2)
  | _ =>
    if intPart.length > 1 && intPart.headD '0' == '0' &&
        !(intPart.all (fun c => c == '0')) then
      .error "leading zeros in decimal integer literals are not permitted"
    else .ok (.int (digitsToNat intPart : Int), u1)

/-- The expression lexer.  The fuel is the remaining length plus one;
every step consumes at least one character. -/
def pyLexAux (fuel : Nat) (cs : List Char) : Except String (List PyTok) :=
  match fuel with
  | 0 => .error "lexer fuel exhausted"
  | fuel + 1 =>
    match cs with
    | [] => .ok []
    | c :: rest =>
      if pyIsSpace c then pyLexAux fuel rest
      else if isDigit c then do
        let (v, rem) ← lexNum cs
        let toks ← pyLexAux fuel rem
        .ok (.num v :: toks)
      else if c == '.' && (rest.headD ' ').isDigit then do
        let (v, rem) ← lexNum cs
        let toks ← pyLexAux fuel rem
        .ok (.num v :: toks)
      else if isWordChar c then
        let run := cs.takeWhile isWordChar
        do
          let toks ← pyLexAux fuel (cs.drop run.length)
          .ok (.name ⟨run⟩ :: toks)
      else if c == '"' || c == squote then do
        let (s, rem) ← lexStr c rest []
        let toks ← pyLexAux fuel rem
        .ok (.strLit s :: toks)
      else
        let two : String := ⟨[c] ++ (rest.take 1)⟩
        if two = "**" || two = "//" || two = "<=" || two = ">=" ||
            two = "==" || two = "!=" then do
          let toks ← pyLexAux fuel rest.tail
          .ok (.op two :: toks)
        else if c == '+' || c == '-' || c == '*' || c == '/' || c == '%' ||
            c == '(' || c == ')' || c == '<' || c == '>' then do
          let toks ← pyLexAux fuel rest
          .ok (.op ⟨[c]⟩ :: toks)
        else .error s!"invalid character in expression: {c}"

/-- The expression lexer over a string. -/
def pyLex (s : String) : Except String (List PyTok) :=
  pyLexAux (s.data.length + 1) s.data

/-- Abstract syntax of the Python expression fragment. -/
inductive PyExpr where
  | lit (v : PyVal)
  | name (s : String)
  | unop (op : String) (e : PyExpr)
  | binop (op : String) (a b : PyExpr)
  | boolop (isAnd : Bool) (a b : PyExpr)
  | cmp (first : PyExpr) (rest : List (String × PyExpr))
deriving Repr

mutual

/-- Python or-expression: left-associative chain of and-expressions. -/
def parseOrE (fuel : Nat) (toks : List PyTok) :
    Except String (PyExpr × List PyTok) :=
  match fuel with
  | 0 => .error "parser fuel exhausted"
  | fuel + 1 => do
    let (left, rem) ← parseAndE fuel toks
    parseOrRest fuel left rem

/-- Zero or more trailing or-operands. -/
def parseOrRest (fuel : Nat) (left : PyExpr) (toks : List PyTok) :
    Except String (PyExpr × List PyTok) :=
  match fuel with
  | 0 => .error "parser fuel exhausted"
  | fuel + 1 =>
    match toks with
    | .name "or" :: rest => do
      let (right, rem) ← parseAndE fuel rest
      parseOrRest fuel (.boolop false left right) rem
    | _ => .ok (left, toks)

/-- Python and-expression. -/
def parseAndE (fuel : Nat) (toks : List PyTok) :
    Except String (PyExpr × List PyTok) :=
  match fuel with
  | 0 => .error "parser fuel exhausted"
  | fuel + 1 => do
    let (left, rem) ← parseNotE fuel toks
    parseAndRest fuel left rem

/-- Zero or more trailing and-operands. -/
def parseAndRest (fuel : Nat) (left : PyExpr) (toks : List PyTok) :
    Except String (PyExpr × List PyTok) :=
  match fuel with
  | 0 => .error "parser fuel exhausted"
  | fuel + 1 =>
    match toks with
    | .name "and" :: rest => do
      let (right, rem) ← parseNotE fuel rest
      parseAndRest fuel (.boolop true left right) rem
    | _ => .ok (left, toks)

/-- Python not-expression. -/
def parseNotE (fuel : Nat) (toks : List PyTok) :
    Except String (PyExpr × List PyTok) :=
  match fuel with
  | 0 => .error "parser fuel exhausted"
  | fuel + 1 =>
    match toks with
    | .name "not" :: rest => do
      let (e, rem) ← parseNotE fuel rest
      .ok (.unop "not" e, rem)
    | _ => parseCmpE fuel toks

/-- Python comparison, possibly chained. -/
def parseCmpE (fuel : Nat) (toks : List PyTok) :
    Except String (PyExpr × List PyTok) :=
  match fuel with
  | 0 => .error "parser fuel exhausted"
  | fuel + 1 => do
    let (first, rem) ← parseArithE fuel toks
    let (pairs, rem1) ← parseCmpRest fuel rem
    match pairs with
    | [] => .ok (first, rem1)
    | _ => .ok (.cmp first pairs, rem1)

/-- Zero or more comparison operator / operand pairs. -/
def parseCmpRest (fuel : Nat) (toks : List PyTok) :
    Except String (List (String × PyExpr) × List PyTok) :=
  match fuel with
  | 0 => .error "parser fuel exhausted"
  | fuel + 1 =>
    match toks with
    | .op o :: rest =>
      if o = "<" || o = ">" || o = "<=" || o = ">=" || o = "==" || o = "!=" then do
        let (e, rem) ← parseArithE fuel rest
        let (more, rem1) ← parseCmpRest fuel rem
        .ok ((o, e) :: more, rem1)
      else .ok ([], toks)
    | _ => .ok ([], toks)

/-- Python additive expression. -/
def parseArithE (fuel : Nat) (toks : List PyTok) :
    Except String (PyExpr × List PyTok) :=
  match fuel with
  | 0 => .error "parser fuel exhausted"
  | fuel + 1 => do
    let (left, rem) ← parseTermE fuel toks
    parseArithRest fuel left rem

/-- Zero or more trailing additive operands. -/
def parseArithRest (fuel : Nat) (left : PyExpr) (toks : List PyTok) :
    Except String (PyExpr × List PyTok) :=
  match fuel with
  | 0 => .error "parser fuel exhausted"
  | fuel + 1 =>
    match toks with
    | .op o :: rest =>
      if o = "+" || o = "-" then do
        let (right, rem) ← parseTermE fuel rest
        parseArithRest fuel (.binop o left right) rem
      else .ok (left, toks)
    | _ => .ok (left, toks)

/-- Python multiplicative expression. -/
def parseTermE (fuel : Nat) (toks : List PyTok) :
    Except String (PyExpr × List PyTok) :=
  match fuel with
  | 0 => .error "parser fuel exhausted"
  | fuel + 1 => do
    let (left, rem) ← parseFactorE fuel toks
    parseTermRest fuel left rem

/-- Zero or more trailing multiplicative operands. -/
def parseTermRest (fuel : Nat) (left : PyExpr) (toks : List PyTok) :
    Except String (PyExpr × List PyTok) :=
  match fuel with
  | 0 => .error "parser fuel exhausted"
  | fuel + 1 =>
    match toks with
    | .op o :: rest =>
      if o = "*" || o = "/" || o = "//" || o = "%" then do
        let (right, rem) ← parseFactorE fuel rest
        parseTermRest fuel (.binop o left right) rem
      else .ok (left, toks)
    | _ => .ok (left, toks)

/-- Python unary factor. -/
def parseFactorE (fuel : Nat) (toks : List PyTok) :
    Except String (PyExpr × List PyTok) :=
  match fuel with
  | 0 => .error "parser fuel exhausted"
  | fuel + 1 =>
    match toks with
    | .op "-" :: rest => do
      let (e, rem) ← parseFactorE fuel rest
      .ok (.unop "-" e, rem)
    | .op "+" :: rest => do
      let (e, rem) ← parseFactorE fuel rest
      .ok (.unop "+" e, rem)
    | _ => parsePowerE fuel toks

/-- Python power expression: atom with an optional right-associative
exponent. -/
def parsePowerE (fuel : Nat) (toks : List PyTok) :
    Except String (PyExpr × List PyTok) :=
  match fuel with
  | 0 => .error "parser fuel exhausted"
  | fuel + 1 => do
    let (base, rem) ← parseAtomE fuel toks
    match rem with
    | .op "**" :: rest => do
      let (e, rem1) ← parseFactorE fuel rest
      .ok (.binop "**" base e, rem1)
    | _ => .ok (base, rem)

/-- Python atom: literal, name or parenthesised expression. -/
def parseAtomE (fuel : Nat) (toks : List PyTok) :
    Except String (PyExpr × List PyTok) :=
  match fuel with
  | 0 => .error "parser fuel exhausted"
  | fuel + 1 =>
    match toks with
    | .num v :: rest => .ok (.lit v, rest)
    | .strLit s :: rest => .ok (.lit (.str s), rest)
    | .name "True" :: rest => .ok (.lit (.bool true), rest)
    | .name "False" :: rest => .ok (.lit (.bool false), rest)
    | .name s :: rest => .ok (.name s, rest)
    | .op "(" :: rest => do
      let (e, rem) ← parseOrE fuel rest
      match rem with
      | .op ")" :: rem1 => .ok (e, rem1)
      | _ => .error "invalid syntax"
    | _ => .error "invalid syntax"

end

/-- Parse a full expression token list; trailing tokens are a syntax
error (eval compiles a single expression). -/
def parseExprTop (toks : List PyTok) : Except String PyExpr := do
  let (e, rem) ← parseOrE (16 * (toks.length + 1)) toks
  match rem with
  | [] => .ok e
  | _ => .error "invalid syntax"

-- ---------------------------------------------------------------------------
-- Evaluation of the expression fragment with Python coercions
-- ---------------------------------------------------------------------------

/-- Numeric view of a value: Python treats booleans as integers in
arithmetic and comparisons. -/
inductive PyNum where
  | i (n : Int)
  | f (q : Rat)

/-- Numeric reading of a value, when one exists. -/
def toNum : PyVal → Option PyNum
  | .int n => some (.i n)
  | .bool b => some (.i (if b then 1 else 0))
  | .float q => some (.f q)
  | .str _ => none

/-- Rational content of a numeric view. -/
def PyNum.rat : PyNum → Rat
  | .i n => (n : Rat)
  | .f q => q

/-- Whether either numeric view is a float (then the result is a
float). -/
def numBin (a b : PyNum) (g : Int → Int → Int) (h : Rat → Rat → Rat) : PyVal :=
  match a, b with
  | .i x, .i y => .int (g x y)
  | _, _ => .float (h a.rat b.rat)

/-- Python binary + on values. -/
def pyAdd (a b : PyVal) : Except String PyVal :=
  match toNum a, toNum b with
  | some x, some y => .ok (numBin x y (· + ·) (· + ·))
  | _, _ =>
    match a, b with
    | .str s, .str t => .ok (.str (s ++ t))
    | _, _ => .error "unsupported operand types for +"

/-- Python binary - on values. -/
def pySub (a b : PyVal) : Except String PyVal :=
  match toNum a, toNum b with
  | some x, some y => .ok (numBin x y (· - ·) (· - ·))
  | _, _ => .error "unsupported operand types for -"

/-- String repetition for the Python * operator. -/
def strRepeat (s : String) (n : Int) : String :=
  String.join (List.replicate n.toNat s)

/-- Python binary * on values (including string repetition by an
integer). -/
def pyMul (a b : PyVal) : Except String PyVal :=
  match toNum a, toNum b with
  | some x, some y => .ok (numBin x y (· * ·) (· * ·))
  | _, _ =>
    match a, b with
    | .str s, .int n => .ok (.str (strRepeat s n))
    | .str s, .bool c => .ok (.str (strRepeat s (if c then 1 else 0)))
    | .int n, .str s => .ok (.str (strRepeat s n))
    | .bool c, .str s => .ok (.str (strRepeat s (if c then 1 else 0)))
    | _, _ => .error "unsupported operand types for *"

/-- Python true division: always a float; zero divisor raises. -/
def pyDiv (a b : PyVal) : Except String PyVal :=
  match toNum a, toNum b with
  | some x, some y =>
    if y.rat = 0 then .error "division by zero"
    else .ok (.float (x.rat / y.rat))
  | _, _ => .error "unsupported operand types for /"

/-- Python floor division; integer when both operands are integral. -/
def pyFloorDiv (a b : PyVal) : Except String PyVal :=
  match toNum a, toNum b with
  | some x, some y =>
    if y.rat = 0 then .error "division by zero"
    else
      match x, y with
      | .i m, .i n => .ok (.int (Int.fdiv m n))
      | _, _ => .ok (.float ((⌊x.rat / y.rat⌋ : Int) : Rat))
  | _, _ => .error "unsupported operand types for //"

/-- Python modulo: the sign follows the divisor (floored modulo). -/
def pyMod (a b : PyVal) : Except String PyVal :=
  match toNum a, toNum b with
  | some x, some y =>
    if y.rat = 0 then .error "division by zero"
    else
      match x, y with
      | .i m, .i n => .ok (.int (Int.fmod m n))
      | _, _ => .ok (.float (x.rat - y.rat * ((⌊x.rat / y.rat⌋ : Int) : Rat)))
  | _, _ => .error "unsupported operand types for %"

/-- Python power restricted to integral exponents (a fractional
exponent produces a real-valued float in Python and is outside the
modelled fragment; no claim exercises it). -/
def pyPow (a b : PyVal) : Except String PyVal :=
  match toNum a, toNum b with
  | some x, some y =>
    let expI : Option (Int × Bool) :=
      match y with
      | .i n => some (n, false)
      | .f q => if q.den = 1 then some (q.num, true) else none
    match expI with
    | none => .error "fractional powers are outside the modelled fragment"
    | some (n, expFloat) =>
      if n ≥ 0 then
        match x, expFloat with
        | .i m, false => .ok (.int (m ^ n.toNat))
        | _, _ => .ok (.float (x.rat ^ n.toNat))
      else if x.rat = 0 then .error "zero cannot be raised to a negative power"
      else .ok (.float (1 / x.rat ^ (-n).toNat))
  | _, _ => .error "unsupported operand types for **"

/-- Python comparison of two values under one comparison operator.
Equality across unrelated types is False rather than an error; ordering
across unrelated types raises. -/
def pyCompare (o : String) (a b : PyVal) : Except String Bool :=
  match toNum a, toNum b with
  | some x, some y =>
    let p := x.rat
    let q := y.rat
    if o = "<" then .ok (decide (p < q))
    else if o = ">" then .ok (decide (p > q))
    else if o = "<=" then .ok (decide (p ≤ q))
    else if o = ">=" then .ok (decide (p ≥ q))
    else if o = "==" then .ok (decide (p = q))
    else .ok (decide (p ≠ q))
  | _, _ =>
    match a, b with
    | .str s, .str t =>
      if o = "<" then .ok (decide (s < t))
      else if o = ">" then .ok (decide (t < s))
      else if o = "<=" then .ok (decide (¬ t < s))
      else if o = ">=" then .ok (decide (¬ s < t))
      else if o = "==" then .ok (s == t)
      else .ok (s != t)
    | _, _ =>
      if o = "==" then .ok false
      else if o = "!=" then .ok true
      else .error "ordering is not supported between these types"

/-- Python unary operators on values. -/
def pyUnop (o : String) (a : PyVal) : Except String PyVal :=
  if o = "not" then .ok (.bool (!a.truthy))
  else
    match toNum a with
    | some x =>
      if o = "-" then
        match x with
        | .i n => .ok (.int (-n))
        | .f q => .ok (.float (-q))
      else .ok (match x with | .i n => .int n | .f q => .float q)
    | none => .error "bad operand type for unary operator"

/-- Dispatch of binary arithmetic operators. -/
def pyBinop (o : String) (a b : PyVal) : Except String PyVal :=
  if o = "+" then pyAdd a b
  else if o = "-" then pySub a b
  else if o = "*" then pyMul a b
  else if o = "/" then pyDiv a b
  else if o = "//" then pyFloorDiv a b
  else if o = "%" then pyMod a b
  else pyPow a b

mutual

/-- Evaluation of the expression fragment.  Names fail because eval runs
with empty builtins and an empty local namespace; and / or
short-circuit and return an operand; chained comparisons short-circuit
at the first false link. -/
def evalPyExpr : PyExpr → Except String PyVal
  | .lit v => .ok v
  | .name s => .error s!"name {s} is not defined"
  | .unop o e => do
    let v ← evalPyExpr e
    pyUnop o v
  | .binop o a b => do
    let x ← evalPyExpr a
    let y ← evalPyExpr b
    pyBinop o x y
  | .boolop isAnd a b => do
    let x ← evalPyExpr a
    if isAnd then
      if x.truthy then evalPyExpr b else .ok x
    else
      if x.truthy then .ok x else evalPyExpr b
  | .cmp first rest => do
    let v ← evalPyExpr first
    evalCmpChain v rest

/-- Left-to-right evaluation of a comparison chain. -/
def evalCmpChain (prev : PyVal) : List (String × PyExpr) → Except String PyVal
  | [] => .ok (.bool true)
  | (o, e) :: rest => do
    let w ← evalPyExpr e
    let ok ← pyCompare o prev w
    if ok then evalCmpChain w rest else .ok (.bool false)

end

/-- Model of eval(compile(expr)) on the substituted expression string. -/
def pyEvalStr (expr : String) : Except String PyVal := do
  let toks ← pyLex expr
  let e ← parseExprTop toks
  evalPyExpr e

-- ---------------------------------------------------------------------------
-- src/core/expression.py : eval_expr
-- ---------------------------------------------------------------------------

/-- eval_expr from src/core/expression.py.  The returned list holds the
log lines emitted through the log callback (empty or one warning). -/
def eval_expr (tokens : List String) (vars : VarMap) :
    PyVal × List (String × String) :=
  match tokens with
  | [] => (.int 0, [])
  | [tok] =>
    if pyStartsWith tok variableSigil then (getVar vars tok, [])
    else (pyCoerce tok, [])
  | _ =>
    let expr := String.intercalate " " tokens
    let expr := normalizeKeywords expr
    let subbed := subVars expr vars
    match pyEvalStr subbed with
    | .ok v => (v, [])
    | .error e => (.int 0, [("WARNING", s!"Expression error {subbed}: {e}")])

-- ---------------------------------------------------------------------------
-- src/core/constants.py
-- ---------------------------------------------------------------------------

/-- MAX_ITERATIONS from src/core/constants.py: hard limit for LOOP,
WHILE and REPEAT. -/
def MAX_ITERATIONS : Nat := 100000

/-- MAX_CALL_DEPTH from src/core/constants.py: maximum CALL nesting
depth. -/
def MAX_CALL_DEPTH : Nat := 16

-- ---------------------------------------------------------------------------
-- src/core/runner.py : state, signals and environment
-- ---------------------------------------------------------------------------

/-- Python exception classes distinguished by _run_cmd: ValueError gets
a warning, every other Exception subclass gets an error log. -/
inductive PyExc where
  | valueError (msg : String)
  | exc (msg : String)
deriving Repr, DecidableEq

/-- Message text of an exception. -/
def PyExc.msg : PyExc → String
  | .valueError m => m
  | .exc m => m

/-- Non-local control transfer of the runner: normal completion, the
four internal flow exceptions (_Break, _Continue, _Return, _Exit) and a
genuine Python exception escaping a node handler. -/
inductive Sig where
  | normal
  | brk
  | cont
  | ret
  | exit
  | err (e : PyExc)
deriving Repr, DecidableEq

/-- Observer callbacks of the runner, recorded as a trace: the per-node
progress tick (on_cmd) and the variables-changed notification with its
snapshot copy. -/
inductive Effect where
  | onCmd (lineNum : Nat)
  | varsChanged (snapshot : VarMap)
deriving Repr, DecidableEq

/-- Outcome of resolving a CALL filename against the macros directory:
not found, unreadable (OSError on read), or its text content. -/
inductive FileResult where
  | absent
  | unreadable (msg : String)
  | content (text : String)

/-- The abstract host environment of one run: the external command
executor (whose device actions may raise), the mouse-position capability,
the shared cancellation flag, the condition callback, the script file
provider, the sugar alias map, whether a variables-changed observer is
registered, and the built-in FUNCTION oracle of the assignment path
(random / time / clipboard / screen capabilities, external to the
core). σ is the external world state threaded through executor calls. -/
structure Env (σ : Type) where
  execute : String → List String → σ → Except PyExc σ
  getMousePos : σ → Except PyExc (σ × Int × Int)
  stopSet : σ → Bool
  condFn : List String → VarMap → σ → Bool
  files : String → FileResult
  sugarMap : String → Option String
  hasVarsChangedFn : Bool
  callFunction : String → List String → VarMap → σ →
    σ × PyVal × List (String × String)

/-- Mutable state threaded through a run: the shared variable store, the
log (most recent first), the observer effect trace (most recent first)
and the external world state. -/
structure RState (σ : Type) where
  vars : VarMap
  log : List (String × String)
  effects : List Effect
  ex : σ
deriving DecidableEq

/-- Append one log line. -/
def addLog (s : RState σ) (lvl msg : String) : RState σ :=
  { s with log := (lvl, msg) :: s.log }

/-- Record the on_cmd progress tick. -/
def tick (s : RState σ) (lineNum : Nat) : RState σ :=
  { s with effects := .onCmd lineNum :: s.effects }

/-- Record the variables-changed notification with the current
snapshot. -/
def notifyVars (s : RState σ) : RState σ :=
  { s with effects := .varsChanged s.vars :: s.effects }

/-- The warning text _run_try logs when it catches a failure (Python
formats the repr of the exception; the model uses its message). -/
def tryCaughtMsg (e : PyExc) : String :=
  let em := e.msg
  s!"TRY block caught: {em}"

/-- Python str() of a value (used when resolving command arguments). -/
def pyStr : PyVal → String
  | .int n => toString n
  | .bool b => if b then "True" else "False"
  | .str s => s
  | .float q => pyFloatStr q

/-- Python repr() of a value (used in assignment INFO logs). -/
def pyReprVal : PyVal → String
  | .int n => toString n
  | .bool b => if b then "True" else "False"
  | .str s => pyReprStr s
  | .float q => pyFloatStr q

/-- Python int() applied to a value, as in the LOOP count coercion: a
string must be an integer literal, a float truncates toward zero, a
boolean is 0 or 1. -/
def pyInt : PyVal → Option Int
  | .int n => some n
  | .bool b => some (if b then 1 else 0)
  | .float q => some (if q ≥ 0 then ⌊q⌋ else -⌊-q⌋)
  | .str t => pyParseInt t

/-- The _resolve_args helper of ASTRunner: substitute the stringified
value of every argument that carries the variable sigil. -/
def resolveArgs (vars : VarMap) (args : List String) : List String :=
  args.map (fun a =>
    if pyStartsWith a variableSigil then pyStr (getVar vars a) else a)

/-- FUNCTION_NAMES from src/core/expression.py. -/
def FUNCTION_NAMES : List String :=
  ["IMAGE_MATCH", "PIXEL_COLOR", "WINDOW_EXISTS", "FILE_EXISTS",
   "GET_TIME", "RANDOM", "CLIPBOARD_GET", "GET_PIXEL_COLOR"]

-- ---------------------------------------------------------------------------
-- src/core/runner.py : non-recursive node handlers
-- ---------------------------------------------------------------------------

/-- The _run_mouse_get_pos helper: read the pointer, store up to two
coordinates into sigil-prefixed argument names, tick progress and notify
the variables observer.  An exception from the position capability is
not handled here and propagates (unlike execute below). -/
def runMouseGetPos (env : Env σ) (args : List String) (lineNum : Nat)
    (s : RState σ) : RState σ × Sig :=
  match env.getMousePos s.ex with
  | .error e => (s, .err e)
  | .ok (ex1, x, y) =>
    let s0 := { s with ex := ex1 }
    let s1 :=
      match args.get? 0 with
      | some a =>
        if pyStartsWith a variableSigil then
          addLog { s0 with vars := setVar s0.vars a (.int x) } "INFO" s!"{a} = {x}"
        else s0
      | none => s0
    let s2 :=
      match args.get? 1 with
      | some a =>
        if pyStartsWith a variableSigil then
          addLog { s1 with vars := setVar s1.vars a (.int y) } "INFO" s!"{a} = {y}"
        else s1
      | none => s1
    let s3 := tick s2 lineNum
    let s4 := if env.hasVarsChangedFn then notifyVars s3 else s3
    (s4, .normal)

/-- The _run_cmd handler of ASTRunner: resolve arguments, turn the four
flow keywords into signals, special-case MOUSE_GET_POS, and otherwise
dispatch to the executor — whose ValueError becomes a warning log and
whose any other exception becomes an error log, execution continuing
either way. -/
def runCmdN (env : Env σ) (tokens : List String) (lineNum : Nat)
    (s : RState σ) : RState σ × Sig :=
  let cmd := pyUpper (tokens.headD "")
  let args := tokens.tail
  let resolved := resolveArgs s.vars args
  if cmd = "BREAK" then (s, .brk)
  else if cmd = "CONTINUE" then (s, .cont)
  else if cmd = "RETURN" then (s, .ret)
  else if cmd = "EXIT" then (s, .exit)
  else if cmd = "MOUSE_GET_POS" then runMouseGetPos env args lineNum s
  else
    match env.execute cmd resolved s.ex with
    | .ok ex1 => (tick { s with ex := ex1 } lineNum, .normal)
    | .error (.valueError m) =>
      (addLog s "WARNING" s!"Line {lineNum + 1}: {m}", .normal)
    | .error (.exc m) =>
      (addLog s "ERROR" s!"Line {lineNum + 1}: {m}", .normal)

/-- The _run_assign handler of ASTRunner.  An empty right-hand side
stores integer zero and ticks progress, skipping the INFO log and the
variables-changed notification; otherwise the value comes from the
FUNCTION oracle or from eval_expr, is stored, logged, ticked and
notified. -/
def runAssignN (env : Env σ) (varName : String) (rhs : List String)
    (lineNum : Nat) (s : RState σ) : RState σ × Sig :=
  match rhs with
  | [] => (tick { s with vars := setVar s.vars varName (.int 0) } lineNum, .normal)
  | r0 :: rrest =>
    let (ex1, value, warns) :=
      if FUNCTION_NAMES.contains (pyUpper r0) then
        env.callFunction r0 rrest s.vars s.ex
      else
        let (v, w) := eval_expr rhs s.vars
        (s.ex, v, w)
    let s1 := { s with ex := ex1, log := warns ++ s.log }
    let s2 := { s1 with vars := setVar s1.vars varName value }
    let rv := pyReprVal value
    let s3 := addLog s2 "INFO" s!"{varName} = {rv}"
    let s4 := tick s3 lineNum
    let s5 := if env.hasVarsChangedFn then notifyVars s4 else s4
    (s5, .normal)

-- ---------------------------------------------------------------------------
-- src/core/runner.py : loop combinators
-- ---------------------------------------------------------------------------

/-- The for-loop of _run_loop over a fixed iteration count: check the
cancellation flag before each iteration, run the body, catch _Break by
ending the loop normally and _Continue by continuing; other signals
propagate. -/
def loopGo (env : Env σ) (bodyRun : RState σ → RState σ × Sig) :
    Nat → RState σ → RState σ × Sig
  | 0, s => (s, .normal)
  | n + 1, s =>
    if env.stopSet s.ex then (s, .exit)
    else
      match bodyRun s with
      | (s1, .brk) => (s1, .normal)
      | (s1, .cont) => loopGo env bodyRun n s1
      | (s1, .normal) => loopGo env bodyRun n s1
      | (s1, sig) => (s1, sig)

/-- The while-loop of _run_while.  The fuel argument is the number of
iterations still allowed before the MAX_ITERATIONS ceiling (the source
counts iterations upward; fuel equals the ceiling minus that counter):
re-test the condition, check cancellation, then the ceiling — which
logs a warning and exits the loop normally — then run the body with
_Break and _Continue handling. -/
def whileGo (env : Env σ) (cond : List String)
    (bodyRun : RState σ → RState σ × Sig) :
    Nat → RState σ → RState σ × Sig
  | fuel, s =>
    if !env.condFn cond s.vars s.ex then (s, .normal)
    else if env.stopSet s.ex then (s, .exit)
    else
      match fuel with
      | 0 =>
        (addLog s "WARNING" s!"WHILE: iteration limit ({MAX_ITERATIONS}) reached",
         .normal)
      | fuel + 1 =>
        match bodyRun s with
        | (s1, .brk) => (s1, .normal)
        | (s1, .cont) => whileGo env cond bodyRun fuel s1
        | (s1, .normal) => whileGo env cond bodyRun fuel s1
        | (s1, sig) => (s1, sig)

/-- The post-test loop of _run_repeat, with the same fuel reading as
whileGo: check cancellation, then the ceiling, run the body with _Break
and _Continue handling, then exit when the condition holds. -/
def repeatGo (env : Env σ) (cond : List String)
    (bodyRun : RState σ → RState σ × Sig) :
    Nat → RState σ → RState σ × Sig
  | fuel, s =>
    if env.stopSet s.ex then (s, .exit)
    else
      match fuel with
      | 0 =>
        (addLog s "WARNING" s!"REPEAT: iteration limit ({MAX_ITERATIONS}) reached",
         .normal)
      | fuel + 1 =>
        match bodyRun s with
        | (s1, .brk) => (s1, .normal)
        | (s1, .cont) =>
          if env.condFn cond s1.vars s1.ex then (s1, .normal)
          else repeatGo env cond bodyRun fuel s1
        | (s1, .normal) =>
          if env.condFn cond s1.vars s1.ex then (s1, .normal)
          else repeatGo env cond bodyRun fuel s1
        | (s1, sig) => (s1, sig)

-- ---------------------------------------------------------------------------
-- src/core/runner.py : the recursive tree walk
-- ---------------------------------------------------------------------------

mutual

/-- ASTRunner.run: execute a node list in order, checking the shared
cancellation flag before every node (a set flag raises _Exit). -/
def runNodes (env : Env σ) (depth : Nat) (nodes : List Node)
    (s : RState σ) : RState σ × Sig :=
  match nodes with
  | [] => (s, .normal)
  | n :: rest =>
    if env.stopSet s.ex then (s, .exit)
    else
      match runNode env depth n s with
      | (s1, .normal) => runNodes env depth rest s1
      | (s1, sig) => (s1, sig)
termination_by ((MAX_CALL_DEPTH + 1) - depth, sizeOf nodes)

/-- ASTRunner._run_node dispatch, together with the block handlers
_run_if, _run_loop, _run_while, _run_repeat, _run_try and _run_call of
src/core/runner.py. -/
def runNode (env : Env σ) (depth : Nat) (node : Node) (s : RState σ) :
    RState σ × Sig :=
  match node with
  | .cmd tokens lineNum => runCmdN env tokens lineNum s
  | .assign varName rhs lineNum => runAssignN env varName rhs lineNum s
  | .ifN branches elseBody => runBranches env depth branches elseBody s
  | .loop countExpr body =>
    let (v, w) := eval_expr [countExpr] s.vars
    let s0 : RState σ := { s with log := w ++ s.log }
    let go := fun t => runNodes env depth body t
    (match pyInt v with
     | some n => loopGo env go n.toNat s0
     | none =>
       loopGo env go 1
         (addLog s0 "WARNING" s!"LOOP: invalid count {countExpr}, defaulting to 1"))
  | .whileN cond body =>
    whileGo env cond (fun t => runNodes env depth body t) MAX_ITERATIONS s
  | .repeatN body cond =>
    repeatGo env cond (fun t => runNodes env depth body t) MAX_ITERATIONS s
  | .tryN tryBody catchBody =>
    (match runNodes env depth tryBody s with
     | (s1, .err e) =>
       let s2 := addLog s1 "WARNING" (tryCaughtMsg e)
       if catchBody.isEmpty then (s2, .normal)
       else runNodes env depth catchBody s2
     | (s1, sig) => (s1, sig))
  | .call filename _lineNum =>
    if _h : MAX_CALL_DEPTH ≤ depth then
      (addLog s "ERROR" s!"CALL: depth limit ({MAX_CALL_DEPTH}) exceeded", .normal)
    else if filename = "" then
      (addLog s "WARNING" "CALL: missing filename", .normal)
    else
      match env.files filename with
      | .absent => (addLog s "WARNING" s!"CALL: file not found: {filename}", .normal)
      | .unreadable m =>
        (addLog s "ERROR" s!"CALL: cannot read {filename}: {m}", .normal)
      | .content text =>
        match build_ast (parse_lines text env.sugarMap) with
        | .error e =>
          (addLog s "ERROR" s!"CALL {filename}: parse error — {e}", .normal)
        | .ok subNodes =>
          let s1 := addLog s "INFO" s!"CALL → {filename}"
          (match runNodes env (depth + 1) subNodes s1 with
           | (s2, .normal) => (addLog s2 "INFO" s!"CALL ← {filename}", .normal)
           | (s2, .ret) => (addLog s2 "INFO" s!"CALL ← {filename}", .normal)
           | (s2, sig) => (s2, sig))
termination_by ((MAX_CALL_DEPTH + 1) - depth, sizeOf node)

/-- The branch scan of _run_if: conditions evaluated in order, first
true branch body runs and the rest are skipped; otherwise the else
body. -/
def runBranches (env : Env σ) (depth : Nat)
    (branches : List (List String × List Node)) (elseBody : List Node)
    (s : RState σ) : RState σ × Sig :=
  match branches with
  | [] => runNodes env depth elseBody s
  | (cond, body) :: rest =>
    if env.condFn cond s.vars s.ex then runNodes env depth body s
    else runBranches env depth rest elseBody s
termination_by ((MAX_CALL_DEPTH + 1) - depth, sizeOf branches + sizeOf elseBody)

end

-- ---------------------------------------------------------------------------
-- Concrete host environments used by witnesses and counterexamples
-- ---------------------------------------------------------------------------

/-- A benign host: every command succeeds without effects, the pointer
sits at the origin, cancellation is never requested, every condition is
true, and one script file named sub.macro exists. -/
def envOk : Env Unit := {
  execute := fun _ _ u => .ok u
  getMousePos := fun u => .ok (u, 0, 0)
  stopSet := fun _ => false
  condFn := fun _ _ _ => true
  files := fun f => if f = "sub.macro" then .content "$z = 5\nRETURN\nKEY x" else .absent
  sugarMap := fun _ => none
  hasVarsChangedFn := false
  callFunction := fun _ _ _ u => (u, .int 0, [])
}

/-- A host whose executor raises a generic exception on every dispatched
command. -/
def envRaise : Env Unit :=
  { envOk with execute := fun _ _ _ => .error (.exc "boom") }

/-- The initial run state over the trivial world. -/
def st0 : RState Unit := { vars := [], log := [], effects := [], ex := () }

/-- The name of the one script file the benign host can resolve. -/
def subFile : String := "sub.macro"

/-- The sugar map of the C1 counterexample: one alias whose canonical
target is the block keyword IF (both sides upper-case). -/
def sugarToIF : String → Option String :=
  fun k => if k = "X" then some "IF" else none

-- ===========================================================================
-- Theorems
-- ===========================================================================

/-- The single-token path of eval_expr emits no log output. -/
theorem eval_expr_single (tok : String) (vars : VarMap) :
    (eval_expr [tok] vars).2 = [] := by
  by_cases h : pyStartsWith tok variableSigil <;> simp [eval_expr, h]

/-- Claim C1 is false as stated: an alias whose canonical target is the
block keyword IF does rewrite the token line, because IF is a key of the
executor dispatch table (a no-op placeholder entry); sugarToIF maps the
upper-case alias X to the upper-case target IF, yet the token line is
not left unchanged. -/
theorem claim1_sugar_counterexample :
    expand_sugar ["X"] sugarToIF = ["IF"] ∧
    expand_sugar ["X"] sugarToIF ≠ ["X"] := by
  refine ⟨rfl, ?_⟩
  decide

/-- Claim C1 (amended): expand_sugar replaces the first token with its
mapped canonical form exactly when that form is a key of the executor
dispatch table; the dispatch table itself lists the block keywords (such
as IF and ENDLOOP) as no-op entries, so an alias targeting a block
keyword is rewritten too, and only an alias whose target is absent from
the dispatch table (an unknown name) leaves the tokens unchanged. -/
theorem claim1_sugar_amended :
    (∀ (t : String) (r : List String) (m : String → Option String) (c : String),
      m (pyUpper t) = some c → is_commands c = true →
      expand_sugar (t :: r) m = c :: r) ∧
    (∀ (t : String) (r : List String) (m : String → Option String) (c : String),
      m (pyUpper t) = some c → is_commands c = false →
      expand_sugar (t :: r) m = t :: r) ∧
    is_commands "IF" = true ∧ is_commands "ENDLOOP" = true := by
  refine ⟨?_, ?_, rfl, rfl⟩
  · intro t r m c h1 h2
    simp [expand_sugar, h1, h2]
  · intro t r m c h1 h2
    simp [expand_sugar, h1, h2]

/-- Witness for the amended C1: a lower-case alias line is rewritten to
its canonical dispatch-table target, and an alias mapped to an unknown
name is left unchanged. -/
theorem claim1_sugar_witness :
    expand_sugar ["pos", "100"]
      (fun k => if k = "POS" then some "MOUSE_POS" else none) = ["MOUSE_POS", "100"] ∧
    expand_sugar ["X"]
      (fun k => if k = "X" then some "NOPE" else none) = ["X"] :=
  ⟨claim1_sugar_amended.1 "pos" ["100"] _ "MOUSE_POS" rfl rfl,
   claim1_sugar_amended.2.1 "X" [] _ "NOPE" rfl rfl⟩

/-- Claim C7: eval_expr joins a multi-token line, normalises the logical
keywords, substitutes variables and evaluates: with a store holding ten
and three the sum line yields integer thirteen; with one and two the
conjunction of comparisons yields boolean true; and whenever evaluation
of the substituted expression fails, eval_expr emits exactly one warning
and returns integer zero instead of propagating the failure. -/
theorem claim7_eval_expr :
    eval_expr ["$a", "+", "$b"] [("$a", .int 10), ("$b", .int 3)] = (.int 13, []) ∧
    eval_expr ["$x", ">", "0", "AND", "$y", ">", "0"]
      [("$x", .int 1), ("$y", .int 2)] = (.bool true, []) ∧
    (∀ (t0 t1 : String) (ts : List String) (vars : VarMap) (expr e : String),
      expr = subVars (normalizeKeywords
        (String.intercalate " " (t0 :: t1 :: ts))) vars →
      pyEvalStr expr = .error e →
      eval_expr (t0 :: t1 :: ts) vars =
        (.int 0, [("WARNING", s!"Expression error {expr}: {e}")])) := by
  refine ⟨rfl, rfl, ?_⟩
  rintro t0 t1 ts vars expr e rfl h
  simp [eval_expr, h]

/-- Witness for C7: the malformed two-token line 1 + fails to evaluate
and produces integer zero together with exactly one warning. -/
theorem claim7_eval_expr_witness :
    eval_expr ["1", "+"] [] =
      (.int 0, [("WARNING", "Expression error 1 +: invalid syntax")]) := by
  have h := claim7_eval_expr.2.2 "1" "+" [] [] "1 +" "invalid syntax" rfl rfl
  exact h

/-- Claim C8: build_ast rejects a stray block terminator with a parse
error — both a lone ENDLOOP line and a lone ENDIF line fail — while a
LOOP block whose closing ENDLOOP is missing builds successfully, the
body extending to the end of input. -/
theorem claim8_build_errors :
    build_ast [["ENDLOOP"]] =
      .error "Unexpected block terminator ENDLOOP at source line 1" ∧
    build_ast [["ENDIF"]] =
      .error "Unexpected block terminator ENDIF at source line 1" ∧
    build_ast [["LOOP", "3"], ["WAIT", "10"]] =
      .ok [.loop "3" [.cmd ["WAIT", "10"] 1]] :=
  ⟨rfl, rfl, rfl⟩

/-- Claim C9: tokenize is total by construction (it is a Lean function);
a line that is blank or comment-only after stripping yields the empty
token list, and a line whose shlex split fails (an unterminated quote)
yields the naive whitespace split of the comment-stripped trimmed line
instead of an error. -/
theorem claim9_tokenize_total :
    (∀ line, pyStrip (strip_comment line) = "" → tokenize line = []) ∧
    (∀ line e, shlexSplit (pyStrip (strip_comment line)) = .error e →
      tokenize line = pySplitWs (pyStrip (strip_comment line))) := by
  constructor
  · intro line h
    simp [tokenize, h]
  · intro line e h
    by_cases hb : pyStrip (strip_comment line) = ""
    · rw [hb] at h
      exact Except.noConfusion h
    · simp [tokenize, hb, h]

/-- Witness for C9: a comment-only line tokenizes to nothing, and a line
with an unterminated double quote falls back to the naive whitespace
split, keeping the quote character. -/
theorem claim9_tokenize_witness :
    tokenize "   # note" = [] ∧
    tokenize "TYPE \"hello" = ["TYPE", "\"hello"] := by
  refine ⟨claim9_tokenize_total.1 "   # note" rfl, ?_⟩
  have h := claim9_tokenize_total.2 "TYPE \"hello" "No closing quotation" rfl
  exact h.trans rfl

/-- Claim C10: executing an Assign node with an empty right-hand side
stores integer zero under the target, records only the progress tick,
and returns normally — in particular the variables-changed observer is
not notified and no INFO line is logged, unlike a normal assignment. -/
theorem claim10_assign_empty_rhs (σ : Type) (env : Env σ) (depth : Nat)
    (varName : String) (ln : Nat) (s : RState σ) :
    runNode env depth (.assign varName [] ln) s =
      ({ s with vars := setVar s.vars varName (.int 0),
                effects := .onCmd ln :: s.effects }, .normal) := by
  simp [runNode, runAssignN, tick]

/-- A loop body that only ever finishes normally or with a CONTINUE
signal makes loopGo iterate the state transformer exactly the requested
number of times, provided cancellation is never requested. -/
theorem loopGo_iterate {σ : Type} (env : Env σ)
    (bodyRun : RState σ → RState σ × Sig)
    (hstop : ∀ ex, env.stopSet ex = false)
    (hbody : ∀ t, (bodyRun t).2 = .normal ∨ (bodyRun t).2 = .cont) :
    ∀ (n : Nat) (s : RState σ),
      loopGo env bodyRun n s = ((fun t => (bodyRun t).1)^[n] s, .normal) := by
  intro n
  induction n with
  | zero => intro s; simp [loopGo]
  | succ n ih =>
    intro s
    have hs : env.stopSet s.ex = false := hstop s.ex
    have he : bodyRun s = ((bodyRun s).1, (bodyRun s).2) := rfl
    rcases hbody s with h | h <;>
      · rw [loopGo, hs, Function.iterate_succ_apply]
        simp only [Bool.false_eq_true, if_false]
        rw [he, h]
        exact ih ((bodyRun s).1)

/-- A while loop whose condition is always true and whose body always
finishes normally runs the body exactly fuel many times, then logs the
ceiling warning and exits normally. -/
theorem whileGo_ceiling {σ : Type} (env : Env σ) (cond : List String)
    (bodyRun : RState σ → RState σ × Sig)
    (hcond : ∀ vars ex, env.condFn cond vars ex = true)
    (hstop : ∀ ex, env.stopSet ex = false)
    (hbody : ∀ t, (bodyRun t).2 = .normal) :
    ∀ (n : Nat) (s : RState σ),
      whileGo env cond bodyRun n s =
        (addLog ((fun t => (bodyRun t).1)^[n] s) "WARNING"
          s!"WHILE: iteration limit ({MAX_ITERATIONS}) reached", .normal) := by
  intro n
  induction n with
  | zero =>
    intro s
    rw [whileGo, hcond s.vars s.ex, hstop s.ex]
    simp
  | succ n ih =>
    intro s
    have he : bodyRun s = ((bodyRun s).1, (bodyRun s).2) := rfl
    rw [whileGo, hcond s.vars s.ex, hstop s.ex, Function.iterate_succ_apply]
    simp only [Bool.not_true, Bool.false_eq_true, if_false]
    rw [he, hbody s]
    exact ih ((bodyRun s).1)

/-- Claim C2 is false as stated: with an executor that raises on every
command, a TryCatch whose try body is a plain command ends normally with
the error logged by the command handler itself; the catch body — which
would assign to a variable — never runs, so the variable store stays
empty and no TRY warning is logged. -/
theorem claim2_trycatch_counterexample :
    (runNode envRaise 0 (.tryN [.cmd ["KEY", "a"] 0] [.assign "$c" ["1"] 1]) st0).2
        = .normal ∧
    (runNode envRaise 0 (.tryN [.cmd ["KEY", "a"] 0] [.assign "$c" ["1"] 1]) st0).1.vars
        = [] ∧
    (runNode envRaise 0 (.tryN [.cmd ["KEY", "a"] 0] [.assign "$c" ["1"] 1]) st0).1.log
        = [("ERROR", "Line 1: boom")] := by
  refine ⟨?_, ?_, ?_⟩ <;>
    · simp only [runNode, runNodes]
      decide

/-- Claim C2 (amended): the four control-transfer signals raised inside
a try body pass through the TryCatch boundary unmodified (so a BREAK in
a try body nested in a loop still breaks the loop); a genuine failure
escaping the try body is caught, logged as a warning, and the catch body
(when present) runs; but an exception raised by the executor during a
plain command never reaches the TryCatch handler, because _run_cmd
itself catches it and logs it (ERROR for a generic exception), execution
continuing normally. -/
theorem claim2_trycatch_amended :
    (∀ (σ : Type) (env : Env σ) (depth : Nat) (tryB catchB : List Node)
        (s s1 : RState σ) (sig : Sig),
      runNodes env depth tryB s = (s1, sig) →
      (sig = .brk ∨ sig = .cont ∨ sig = .ret ∨ sig = .exit) →
      runNode env depth (.tryN tryB catchB) s = (s1, sig)) ∧
    (∀ (σ : Type) (env : Env σ) (depth : Nat) (tryB catchB : List Node)
        (s s1 : RState σ) (e : PyExc),
      runNodes env depth tryB s = (s1, .err e) →
      runNode env depth (.tryN tryB catchB) s =
        (if catchB.isEmpty
         then (addLog s1 "WARNING" (tryCaughtMsg e), .normal)
         else runNodes env depth catchB
           (addLog s1 "WARNING" (tryCaughtMsg e)))) ∧
    (∀ (σ : Type) (env : Env σ) (tokens : List String) (lineNum : Nat)
        (s : RState σ) (m : String),
      pyUpper (tokens.headD "") ≠ "BREAK" →
      pyUpper (tokens.headD "") ≠ "CONTINUE" →
      pyUpper (tokens.headD "") ≠ "RETURN" →
      pyUpper (tokens.headD "") ≠ "EXIT" →
      pyUpper (tokens.headD "") ≠ "MOUSE_GET_POS" →
      env.execute (pyUpper (tokens.headD ""))
        (resolveArgs s.vars tokens.tail) s.ex = .error (.exc m) →
      runCmdN env tokens lineNum s =
        (addLog s "ERROR" s!"Line {lineNum + 1}: {m}", .normal)) := by
  refine ⟨?_, ?_, ?_⟩
  · intro σ env depth tryB catchB s s1 sig h hsig
    rcases hsig with rfl | rfl | rfl | rfl <;> simp [runNode, h]
  · intro σ env depth tryB catchB s s1 e h
    by_cases hc : catchB.isEmpty <;> simp [runNode, h, hc]
  · intro σ env tokens lineNum s m h1 h2 h3 h4 h5 hex
    simp only [runCmdN]
    rw [if_neg h1, if_neg h2, if_neg h3, if_neg h4, if_neg h5, hex]

/-- Witness for the amended C2: a BREAK raised in a try body passes
through unmodified, and a command whose executor raises ends with the
command-level ERROR log and a normal signal. -/
theorem claim2_trycatch_witness :
    runNode envOk 0 (.tryN [.cmd ["BREAK"] 0] [.cmd ["KEY", "c"] 1]) st0
        = (st0, .brk) ∧
    runCmdN envRaise ["KEY", "a"] 0 st0 =
      (addLog st0 "ERROR" "Line 1: boom", .normal) := by
  constructor
  · exact claim2_trycatch_amended.1 Unit envOk 0 _ _ st0 st0 .brk
      (by simp +decide [runNodes, runNode, runCmdN, envOk, st0, resolveArgs])
      (Or.inl rfl)
  · exact claim2_trycatch_amended.2.2 Unit envRaise ["KEY", "a"] 0 st0 "boom"
      (by decide) (by decide) (by decide) (by decide) (by decide) rfl

/-- Claim C3: the Loop count is evaluated exactly once at loop entry as
a typed expression and coerced with int(); when the coercion succeeds
with n, a body that only ever ends normally or with CONTINUE runs
exactly n times (so assignments inside the body cannot change the
remaining iteration count, the count being fixed from the entry state);
when the coercion fails, a warning is logged and the body runs exactly
once. -/
theorem claim3_loop_count {σ : Type} (env : Env σ) (depth : Nat)
    (countExpr : String) (body : List Node) (s : RState σ)
    (hstop : ∀ ex, env.stopSet ex = false)
    (hbody : ∀ t, (runNodes env depth body t).2 = .normal ∨
      (runNodes env depth body t).2 = .cont) :
    (∀ n : Int, pyInt (eval_expr [countExpr] s.vars).1 = some n →
      runNode env depth (.loop countExpr body) s =
        ((fun t => (runNodes env depth body t).1)^[n.toNat] s, .normal)) ∧
    (pyInt (eval_expr [countExpr] s.vars).1 = none →
      runNode env depth (.loop countExpr body) s =
        ((fun t => (runNodes env depth body t).1)^[1]
          (addLog s "WARNING"
            s!"LOOP: invalid count {countExpr}, defaulting to 1"), .normal)) := by
  rcases hEv : eval_expr [countExpr] s.vars with ⟨v, w⟩
  have hw : w = [] := by
    have h := eval_expr_single countExpr s.vars
    rw [hEv] at h
    exact h
  subst hw
  constructor
  · intro n hn
    have hn2 : pyInt v = some n := hn
    simp only [runNode, hEv, hn2, List.nil_append]
    rw [loopGo_iterate env _ hstop hbody]
  · intro hn
    have hn2 : pyInt v = none := hn
    simp only [runNode, hEv, hn2, List.nil_append]
    rw [loopGo_iterate env _ hstop hbody]

/-- Witness for C3: a literal count of three runs the body exactly three
times in the benign host. -/
theorem claim3_loop_witness :
    pyInt (eval_expr ["3"] st0.vars).1 = some 3 ∧
    runNode envOk 0 (.loop "3" [Node.cmd ["WAIT", "10"] 0]) st0 =
      ((fun t => (runNodes envOk 0 [Node.cmd ["WAIT", "10"] 0] t).1)^[(3 : Int).toNat]
        st0, .normal) := by
  refine ⟨rfl, ?_⟩
  exact (claim3_loop_count envOk 0 "3" [Node.cmd ["WAIT", "10"] 0] st0
    (fun _ => rfl)
    (fun t => Or.inl (by simp +decide [runNodes, runNode, runCmdN, envOk, resolveArgs]))).1
    3 rfl

/-- Claim C4: a While whose condition is always true, whose body always
ends normally, and with cancellation never requested, terminates: the
body state transformer is applied exactly MAX_ITERATIONS (100000) times,
then the ceiling warning is logged and the loop ends with a normal
signal — no exception and no abort of the rest of the run. -/
theorem claim4_while_ceiling {σ : Type} (env : Env σ) (depth : Nat)
    (cond : List String) (body : List Node) (s : RState σ)
    (hcond : ∀ vars ex, env.condFn cond vars ex = true)
    (hstop : ∀ ex, env.stopSet ex = false)
    (hbody : ∀ t, (runNodes env depth body t).2 = .normal) :
    runNode env depth (.whileN cond body) s =
      (addLog ((fun t => (runNodes env depth body t).1)^[MAX_ITERATIONS] s)
        "WARNING" s!"WHILE: iteration limit ({MAX_ITERATIONS}) reached", .normal) := by
  simp only [runNode]
  exact whileGo_ceiling env cond _ hcond hstop hbody MAX_ITERATIONS s

/-- Witness for C4: in a host whose condition callback is constantly
true and never cancels, a one-command While body reaches the ceiling. -/
theorem claim4_while_witness :
    runNode envOk 0 (.whileN ["TRUE"] [Node.cmd ["WAIT", "10"] 0]) st0 =
      (addLog
        ((fun t => (runNodes envOk 0 [Node.cmd ["WAIT", "10"] 0] t).1)^[MAX_ITERATIONS]
          st0)
        "WARNING" s!"WHILE: iteration limit ({MAX_ITERATIONS}) reached", .normal) :=
  claim4_while_ceiling envOk 0 ["TRUE"] [Node.cmd ["WAIT", "10"] 0] st0
    (fun _ _ => rfl) (fun _ => rfl)
    (fun t => by simp +decide [runNodes, runNode, runCmdN, envOk, resolveArgs])

/-- Claim C5: a Call node reached at depth at least MAX_CALL_DEPTH (16)
logs the depth-limit error and returns a normal signal without touching
the callee, and the enclosing node list continues with the next node
from the logged state; the recursion of nested runners is therefore cut
off at the limit and the run is not aborted. -/
theorem claim5_call_depth {σ : Type} (env : Env σ) (depth : Nat)
    (fname : String) (ln : Nat) (s : RState σ) (rest : List Node)
    (hd : MAX_CALL_DEPTH ≤ depth) (hstop : env.stopSet s.ex = false) :
    runNode env depth (.call fname ln) s =
      (addLog s "ERROR" s!"CALL: depth limit ({MAX_CALL_DEPTH}) exceeded", .normal) ∧
    runNodes env depth (.call fname ln :: rest) s =
      runNodes env depth rest
        (addLog s "ERROR" s!"CALL: depth limit ({MAX_CALL_DEPTH}) exceeded") := by
  have h1 : runNode env depth (.call fname ln) s =
      (addLog s "ERROR" s!"CALL: depth limit ({MAX_CALL_DEPTH}) exceeded", .normal) := by
    simp only [runNode]
    rw [dif_pos hd]
  refine ⟨h1, ?_⟩
  simp only [runNodes, hstop, Bool.false_eq_true, if_false, h1]

/-- Witness for C5: at depth sixteen in the benign host the call is
refused and the following command still runs. -/
theorem claim5_call_witness :
    runNode envOk 16 (.call "sub.macro" 0) st0 =
      (addLog st0 "ERROR" s!"CALL: depth limit ({MAX_CALL_DEPTH}) exceeded", .normal) ∧
    runNodes envOk 16 [Node.call "sub.macro" 0, Node.cmd ["WAIT", "10"] 1] st0 =
      runNodes envOk 16 [Node.cmd ["WAIT", "10"] 1]
        (addLog st0 "ERROR" s!"CALL: depth limit ({MAX_CALL_DEPTH}) exceeded") :=
  claim5_call_depth envOk 16 "sub.macro" 0 st0 [Node.cmd ["WAIT", "10"] 1]
    (by decide) rfl

/-- Claim C6: a Call below the depth limit whose file resolves and
parses executes the callee AST at depth plus one starting from the
caller state (the variable store is the same threaded store, not a
copy, so every callee write is visible afterwards); a RETURN signal from
the callee is absorbed, the caller logging the return INFO line and
continuing normally, exactly as a normal callee completion does, while
other signals propagate. -/
theorem claim6_call_shared_store {σ : Type} (env : Env σ) (depth : Nat)
    (fname : String) (ln : Nat) (s : RState σ) (text : String)
    (subNodes : List Node)
    (hd : depth < MAX_CALL_DEPTH) (hne : ¬ fname = "")
    (hf : env.files fname = .content text)
    (hp : build_ast (parse_lines text env.sugarMap) = .ok subNodes) :
    runNode env depth (.call fname ln) s =
      (match runNodes env (depth + 1) subNodes
          (addLog s "INFO" s!"CALL → {fname}") with
       | (s2, .normal) => (addLog s2 "INFO" s!"CALL ← {fname}", .normal)
       | (s2, .ret) => (addLog s2 "INFO" s!"CALL ← {fname}", .normal)
       | (s2, sig) => (s2, sig)) ∧
    (∀ s2 : RState σ,
      runNodes env (depth + 1) subNodes (addLog s "INFO" s!"CALL → {fname}")
          = (s2, .ret) →
      runNode env depth (.call fname ln) s =
        (addLog s2 "INFO" s!"CALL ← {fname}", .normal)) := by
  have h1 : runNode env depth (.call fname ln) s =
      (match runNodes env (depth + 1) subNodes
          (addLog s "INFO" s!"CALL → {fname}") with
       | (s2, .normal) => (addLog s2 "INFO" s!"CALL ← {fname}", .normal)
       | (s2, .ret) => (addLog s2 "INFO" s!"CALL ← {fname}", .normal)
       | (s2, sig) => (s2, sig)) := by
    have hnd : ¬ MAX_CALL_DEPTH ≤ depth := by omega
    simp only [runNode, hnd, hne, hf, hp]
    simp
  refine ⟨h1, ?_⟩
  intro s2 h2
  rw [h1, h2]

/-- Witness for C6: calling sub.macro in the benign host parses its
three lines ($z = 5, RETURN, KEY x), the callee runs at depth one on the
caller state, stores five under $z, its RETURN ends only the callee (the
KEY line never runs), and the caller sees the store with $z set and
continues normally. -/
theorem claim6_call_witness :
    runNodes envOk (0 + 1)
        [Node.assign "$z" ["5"] 0, Node.cmd ["RETURN"] 1, Node.cmd ["KEY", "x"] 2]
        (addLog st0 "INFO" s!"CALL → {subFile}") =
      ({ vars := [("$z", PyVal.int 5)],
         log := [("INFO", "$z = 5"), ("INFO", "CALL → sub.macro")],
         effects := [Effect.onCmd 0], ex := () }, .ret) ∧
    runNode envOk 0 (.call subFile 0) st0 =
      (addLog
        { vars := [("$z", PyVal.int 5)],
          log := [("INFO", "$z = 5"), ("INFO", "CALL → sub.macro")],
          effects := [Effect.onCmd 0], ex := () } "INFO" s!"CALL ← {subFile}",
       .normal) := by
  have h1 : runNodes envOk (0 + 1)
      [Node.assign "$z" ["5"] 0, Node.cmd ["RETURN"] 1, Node.cmd ["KEY", "x"] 2]
      (addLog st0 "INFO" s!"CALL → {subFile}") =
      ({ vars := [("$z", PyVal.int 5)],
         log := [("INFO", "$z = 5"), ("INFO", "CALL → sub.macro")],
         effects := [Effect.onCmd 0], ex := () }, .ret) := by
    simp only [runNodes, runNode]
    decide
  exact ⟨h1, (claim6_call_shared_store envOk 0 subFile 0 st0 "$z = 5\nRETURN\nKEY x"
    [Node.assign "$z" ["5"] 0, Node.cmd ["RETURN"] 1, Node.cmd ["KEY", "x"] 2]
    (by decide) (by decide) rfl rfl).2 _ h1⟩

end MacroPlayer
